import Mathlib

/-!
Shallow embedding of the radar TUI simulator core (src/radar.rs, src/tui.rs).
Machine floats (f64) are modelled as exact rationals; `std::time::Instant`
timestamps are rationals measured in seconds, with `Instant::duration_since`
saturating at zero as in the library.
-/

namespace RadarSim

/-- `ObjectType` from src/radar.rs. -/
inductive ObjectType
  | AirCraft
  | Ship
  | Unknown
  | Hostile
  | Generic
  | Weather
deriving DecidableEq, Repr

/-- `Contact` from src/radar.rs: the sweep's memory of a detection. -/
structure Contact where
  id : Nat
  angle : ℚ
  distance : ℚ
  last_hit_time : ℚ
  visibility : ℚ
  object_type : ObjectType
deriving DecidableEq, Repr

/-- `WorldObjects` from src/radar.rs: a live simulated entity.
`velocity.1` is the angular rate, `velocity.2` the radial rate. -/
structure WorldObjects where
  id : Nat
  angle : ℚ
  distance : ℚ
  object_type : ObjectType
  velocity : ℚ × ℚ
deriving DecidableEq, Repr

/-- `RadarWidget` from src/radar.rs (the render-only fields
`center_x`/`center_y` are omitted: no simulation operation reads them). -/
structure RadarWidget where
  sweep_angle : ℚ
  detected_contacts : List Contact
  world_objects : List WorldObjects
  max_range : ℚ
  fade_duration : ℚ
deriving DecidableEq, Repr

/-- `RadarWidget::DEGREES_PER_SECOND`. -/
def DEGREES_PER_SECOND : ℚ := 48

/-- The fixed beam width `sweep_width` in `sweep_crossed_target`. -/
def sweep_width : ℚ := 3

/-- `RadarWidget::sweep_crossed_target` from src/radar.rs lines 129-150,
translated branch for branch. -/
def sweep_crossed_target (old_angle new_angle target_angle : ℚ) : Bool :=
  if new_angle < old_angle then
    -- Sweep crossed 0 degrees
    if target_angle ≥ old_angle ∨ target_angle ≤ new_angle then
      let angle_diff : ℚ :=
        if target_angle ≥ old_angle then new_angle + (360 - old_angle)
        else new_angle - 0
      decide (angle_diff ≤ sweep_width)
    else
      false
  else
    -- Normal case
    if target_angle ≥ old_angle ∧ target_angle ≤ new_angle then
      decide (target_angle - old_angle ≤ sweep_width)
    else
      false

/-- The beam-crossing rule exactly as the specification words it (§4.2):
non-wrapping case requires `old ≤ t ≤ new` and `t - old ≤ beam_width`;
wrapping case requires `t ≥ old ∨ t ≤ new` with effective sweep distance
`new + (360 - old)` in the pre-wrap segment and `new` in the post-wrap
segment, crossing iff that distance is at most the beam width. -/
def crossedSpec (old_angle new_angle target_angle : ℚ) : Bool :=
  if new_angle ≥ old_angle then
    decide (old_angle ≤ target_angle ∧ target_angle ≤ new_angle ∧
      target_angle - old_angle ≤ 3)
  else
    decide ((target_angle ≥ old_angle ∨ target_angle ≤ new_angle) ∧
      (if target_angle ≥ old_angle then new_angle + (360 - old_angle)
       else new_angle) ≤ 3)

/-- `Instant::duration_since(earlier).as_secs_f64()`: the elapsed time from
`t` to `now`, saturating at zero when `t` is later than `now`. -/
def elapsed_since (now t : ℚ) : ℚ := max (now - t) 0

/-- The visibility assigned to a contact whose last hit is `elapsed` seconds
old, as computed in `RadarWidget::update_target_visibility`:
`(1.0 - time_since_hit / fade_duration).max(0.0)` below the fade duration,
`0.0` from there on. -/
def visibility_at (fade elapsed : ℚ) : ℚ :=
  if elapsed < fade then max (1 - elapsed / fade) 0 else 0

/-- The per-contact body of the visibility loop in
`RadarWidget::update_target_visibility`: recompute the visibility from the
elapsed time since the last hit; every other field is untouched. -/
def refreshed_contact (now fade : ℚ) (c : Contact) : Contact :=
  { c with visibility := visibility_at fade (elapsed_since now c.last_hit_time) }

/-- The contact-list transformation of `RadarWidget::update_target_visibility`
(src/radar.rs lines 80-97): retain contacts younger than
`max_age = fade_duration * 2`, then recompute every visibility. -/
def refresh_contacts (now fade : ℚ) (contacts : List Contact) : List Contact :=
  (contacts.filter (fun c => elapsed_since now c.last_hit_time < fade * 2)).map
    (refreshed_contact now fade)

/-- `RadarWidget::update_target_visibility`, with the wall clock `now` passed
explicitly in place of `Instant::now()`. -/
def update_target_visibility (now : ℚ) (w : RadarWidget) : RadarWidget :=
  { w with detected_contacts := refresh_contacts now w.fade_duration w.detected_contacts }

/-- The field writes `check_sweep_hits` performs on an existing contact it
re-detects: overwrite the position snapshot with the object's current values,
reset the last-hit time to `now` and set visibility to 1. -/
def hit_contact (now : ℚ) (obj : WorldObjects) (c : Contact) : Contact :=
  { c with angle := obj.angle, distance := obj.distance,
           last_hit_time := now, visibility := 1 }

/-- The fresh contact `check_sweep_hits` pushes for a first-time detection. -/
def new_contact (now : ℚ) (obj : WorldObjects) : Contact :=
  { id := obj.id, angle := obj.angle, distance := obj.distance,
    last_hit_time := now, visibility := 1, object_type := obj.object_type }

/-- `self.detected_contacts.iter_mut().find(|c| c.id == world_obj.id)` followed
by the in-place field writes in `check_sweep_hits`: overwrite the FIRST contact
carrying the object's id with the object's current position, reset its
last-hit time and set its visibility to 1. -/
def update_first_contact (now : ℚ) (obj : WorldObjects) : List Contact → List Contact
  | [] => []
  | c :: cs =>
    if c.id = obj.id then
      hit_contact now obj c :: cs
    else
      c :: update_first_contact now obj cs

/-- The per-object body of `RadarWidget::check_sweep_hits`: update the existing
contact with the object's id if there is one, otherwise push a fresh contact
with visibility 1. -/
def record_detection (now : ℚ) (obj : WorldObjects) (contacts : List Contact) :
    List Contact :=
  if contacts.any (fun c => c.id = obj.id) then
    update_first_contact now obj contacts
  else
    contacts ++ [new_contact now obj]

/-- The loop body of `RadarWidget::check_sweep_hits`: fold `record_detection`
over the world objects the beam crossed between `old_angle` and `new_angle`. -/
def sweep_hits_fold (now old_angle new_angle : ℚ) (objs : List WorldObjects)
    (contacts : List Contact) : List Contact :=
  objs.foldl
    (fun cs obj =>
      if sweep_crossed_target old_angle new_angle obj.angle then
        record_detection now obj cs
      else cs)
    contacts

/-- `RadarWidget::check_sweep_hits` (src/radar.rs lines 98-127): run
`record_detection` for every world object the beam crossed between
`old_angle` and the current `sweep_angle`. -/
def check_sweep_hits (now old_angle : ℚ) (w : RadarWidget) : RadarWidget :=
  { w with detected_contacts :=
      sweep_hits_fold now old_angle w.sweep_angle w.world_objects w.detected_contacts }

/-- The sweep-angle advance of `RadarWidget::update_sweep`:
add `delta_time * DEGREES_PER_SECOND`, subtract 360 once when the result
reaches 360. -/
def sweep_step (delta_time a : ℚ) : ℚ :=
  let a' := a + delta_time * DEGREES_PER_SECOND
  if a' ≥ 360 then a' - 360 else a'

/-- `RadarWidget::update_sweep` (src/radar.rs lines 67-78): advance the sweep
angle, refresh contact visibilities, then check for sweep hits against the
old angle. `now` stands for the `Instant::now()` calls of the two helpers. -/
def update_sweep (delta_time now : ℚ) (w : RadarWidget) : RadarWidget :=
  let old_angle := w.sweep_angle
  let w1 := { w with sweep_angle := sweep_step delta_time w.sweep_angle }
  let w2 := update_target_visibility now w1
  check_sweep_hits now old_angle w2

/-- The per-object motion step of `RadarWidget::update_world_objects`:
integrate the velocity over `delta_time` and wrap the angle once at the
0/360 boundary. -/
def step_object (delta_time : ℚ) (obj : WorldObjects) : WorldObjects :=
  let angle' := obj.angle + obj.velocity.1 * delta_time
  let distance' := obj.distance + obj.velocity.2 * delta_time
  let angle'' :=
    if angle' ≥ 360 then angle' - 360
    else if angle' < 0 then angle' + 360
    else angle'
  { obj with angle := angle'', distance := distance' }

/-- `RadarWidget::update_world_objects` (src/radar.rs lines 252-269): move
every object, then retain only those with distance in (0, max_range]. -/
def update_world_objects (delta_time : ℚ) (w : RadarWidget) : RadarWidget :=
  let moved := w.world_objects.map (step_object delta_time)
  { w with world_objects :=
      moved.filter (fun o => 0 < o.distance ∧ o.distance ≤ w.max_range) }

/-- Common effect of the `spawn_*` family (src/radar.rs lines 270-375) on the
world: push one new object. The randomized fields drawn from `rand::rng()`
are supplied in `obj` by the caller. -/
def spawn_object (obj : WorldObjects) (w : RadarWidget) : RadarWidget :=
  { w with world_objects := w.world_objects ++ [obj] }

/-- `RadarWidget::spawn_aircraft` with the three random draws
(`start_angle`, `target_angle`, `radial_velocity`) passed explicitly:
normalize the angular difference into (-180, 180], divide by 120 to get the
angular velocity, spawn at 90% of max range. -/
def spawn_aircraft (id : Nat) (start_angle target_angle radial_velocity : ℚ)
    (w : RadarWidget) : RadarWidget :=
  let d0 := target_angle - start_angle
  let d1 := if d0 > 180 then d0 - 360 else d0
  let d2 := if d1 < -180 then d1 + 360 else d1
  let angular_velocity := d2 / 120
  spawn_object
    { id := id, angle := start_angle, distance := w.max_range * (9 / 10),
      object_type := ObjectType.AirCraft,
      velocity := (angular_velocity, radial_velocity) } w

/-- `RadarWidget::spawn_ship` with its four random draws passed explicitly. -/
def spawn_ship (id : Nat) (angle distance av rv : ℚ) (w : RadarWidget) :
    RadarWidget :=
  spawn_object
    { id := id, angle := angle, distance := distance,
      object_type := ObjectType.Ship, velocity := (av, rv) } w

/-- `RadarWidget::spawn_unknown` with its four random draws passed explicitly. -/
def spawn_unknown (id : Nat) (angle distance av rv : ℚ) (w : RadarWidget) :
    RadarWidget :=
  spawn_object
    { id := id, angle := angle, distance := distance,
      object_type := ObjectType.Unknown, velocity := (av, rv) } w

/-- `RadarWidget::spawn_hostile` with its four random draws passed explicitly. -/
def spawn_hostile (id : Nat) (angle distance av rv : ℚ) (w : RadarWidget) :
    RadarWidget :=
  spawn_object
    { id := id, angle := angle, distance := distance,
      object_type := ObjectType.Hostile, velocity := (av, rv) } w

/-- `RadarWidget::spawn_generic` with its four random draws passed explicitly. -/
def spawn_generic (id : Nat) (angle distance av rv : ℚ) (w : RadarWidget) :
    RadarWidget :=
  spawn_object
    { id := id, angle := angle, distance := distance,
      object_type := ObjectType.Generic, velocity := (av, rv) } w

/-- `RadarWidget::spawn_weather` with its four random draws passed explicitly. -/
def spawn_weather (id : Nat) (angle distance av rv : ℚ) (w : RadarWidget) :
    RadarWidget :=
  spawn_object
    { id := id, angle := angle, distance := distance,
      object_type := ObjectType.Weather, velocity := (av, rv) } w

/-- `RadarWidget::spawn_random_object`: dispatch on the selector draw
`rng.random_range(0..6)`; the chosen spawner's own draws are passed along. -/
def spawn_random_object (id : Nat) (sel : Nat) (r1 r2 r3 r4 : ℚ)
    (w : RadarWidget) : RadarWidget :=
  match sel with
  | 0 => spawn_aircraft id r1 r2 r3 w
  | 1 => spawn_ship id r1 r2 r3 r4 w
  | 2 => spawn_unknown id r1 r2 r3 r4 w
  | 3 => spawn_hostile id r1 r2 r3 r4 w
  | 4 => spawn_generic id r1 r2 r3 r4 w
  | 5 => spawn_weather id r1 r2 r3 r4 w
  | _ => spawn_generic id r1 r2 r3 r4 w

/-- One simulation-facing operation on the widget state, with all
external inputs (wall clock, time delta, random draws baked into the spawned
object) made explicit. These are exactly the mutators of `RadarWidget`
reachable from the tick path. -/
inductive Op
  | sweep (delta_time now : ℚ)
  | refresh (now : ℚ)
  | motion (delta_time : ℚ)
  | spawn (obj : WorldObjects)

/-- Apply one operation to the widget. -/
def apply_op (w : RadarWidget) : Op → RadarWidget
  | Op.sweep dt now => update_sweep dt now w
  | Op.refresh now => update_target_visibility now w
  | Op.motion dt => update_world_objects dt w
  | Op.spawn obj => spawn_object obj w

/-- The ids of the widget's tracked contacts, in list order. -/
def contact_ids (w : RadarWidget) : List Nat :=
  w.detected_contacts.map (fun c => c.id)

/-- C5: one motion update moves every object by its velocity integrated over
`dt`, wraps a starting angle in [0, 360) back into [0, 360) by adding or
subtracting 360 (given no multi-wrap), and then removes exactly the objects
whose distance left (0, max_range]; every survivor has distance in
(0, max_range]. -/
theorem update_world_objects_spec (w : RadarWidget) (dt : ℚ)
    (hr : 0 < w.max_range) (hdt : 0 ≤ dt) :
    (∀ obj : WorldObjects, 0 ≤ obj.angle → obj.angle < 360 →
      |obj.velocity.1 * dt| < 360 →
      (step_object dt obj).distance = obj.distance + obj.velocity.2 * dt ∧
      ((step_object dt obj).angle = obj.angle + obj.velocity.1 * dt ∨
       (step_object dt obj).angle = obj.angle + obj.velocity.1 * dt - 360 ∨
       (step_object dt obj).angle = obj.angle + obj.velocity.1 * dt + 360) ∧
      0 ≤ (step_object dt obj).angle ∧ (step_object dt obj).angle < 360) ∧
    (update_world_objects dt w).world_objects =
      (w.world_objects.map (step_object dt)).filter
        (fun o => 0 < o.distance ∧ o.distance ≤ w.max_range) ∧
    (∀ o ∈ (update_world_objects dt w).world_objects,
      0 < o.distance ∧ o.distance ≤ w.max_range) := by
  refine ⟨?_, rfl, ?_⟩
  · intro obj ha0 ha1 hv
    rw [abs_lt] at hv
    obtain ⟨hvl, hvr⟩ := hv
    simp only [step_object]
    split_ifs with h1 h2
    · exact ⟨by trivial, Or.inr (Or.inl (by trivial)), by linarith, by linarith⟩
    · exact ⟨by trivial, Or.inr (Or.inr (by trivial)), by linarith, by linarith⟩
    · exact ⟨by trivial, Or.inl (by trivial), by linarith, by linarith⟩
  · intro o ho
    have := List.of_mem_filter ho
    simpa using this

/-- A concrete world object used by the demonstration theorems below. -/
def demo_obj : WorldObjects := ⟨1, 350, 50, ObjectType.Generic, (20, 5)⟩

/-- A concrete empty widget used by the demonstration theorems below. -/
def demo_widget : RadarWidget := ⟨0, [], [], 1000, 14⟩

/-- Witness for C5 at a concrete widget and object. -/
theorem update_world_objects_spec_witness :
    0 ≤ (step_object 1 demo_obj).angle :=
  ((update_world_objects_spec demo_widget 1 (by norm_num [demo_widget])
    (by norm_num)).1 demo_obj (by norm_num [demo_obj]) (by norm_num [demo_obj])
    (by norm_num [demo_obj, abs])).2.2.1

/-- C6 counterexample: starting at sweep angle 0 and ticking once with
dt = 20 (so the advance is 960°), `update_sweep` leaves the sweep angle at
600°, which is not in [0, 360) — the single `- 360` correction does not
realise a full `mod 360`. -/
theorem sweep_angle_mod_ctrex :
    (update_sweep 20 0 demo_widget).sweep_angle = 600 ∧
    ¬ ((update_sweep 20 0 demo_widget).sweep_angle < 360) := by
  have h : (update_sweep 20 0 demo_widget).sweep_angle = 600 := by
    show sweep_step 20 demo_widget.sweep_angle = 600
    norm_num [sweep_step, DEGREES_PER_SECOND, demo_widget]
  rw [h]
  norm_num

/-- The spec's `mod 360` on angles: the representative of `x` in [0, 360). -/
def mod360 (x : ℚ) : ℚ := x - 360 * ⌊x / 360⌋

/-- `mod360` is determined by any decomposition `x = r + 360k` with
`r ∈ [0, 360)`. -/
theorem mod360_eq_of_decomp (x r : ℚ) (h0 : 0 ≤ r) (h1 : r < 360) (k : ℤ)
    (hk : x = r + 360 * k) : mod360 x = r := by
  unfold mod360
  have hdiv : x / 360 = r / 360 + (k : ℚ) := by
    rw [hk]
    ring
  have hfl : ⌊r / 360⌋ = 0 := by
    rw [Int.floor_eq_zero_iff]
    constructor
    · exact div_nonneg h0 (by norm_num)
    · exact (div_lt_one (by norm_num)).mpr h1
  rw [hdiv, Int.floor_add_int, hfl, hk]
  push_cast
  ring

/-- The sweep angle after `N` applications of the sweep-angle advance. -/
def sweep_iter (init dt : ℚ) : Nat → ℚ
  | 0 => init
  | n + 1 => sweep_step dt (sweep_iter init dt n)

/-- One sweep-angle advance from [0, 360) with a sub-revolution step stays in
[0, 360) and is the raw advance, corrected by 360 at most once. -/
theorem sweep_step_cases (dt a : ℚ) (ha0 : 0 ≤ a) (ha1 : a < 360)
    (hdt : 0 ≤ dt) (hstep : dt * DEGREES_PER_SECOND < 360) :
    0 ≤ sweep_step dt a ∧ sweep_step dt a < 360 ∧
    (sweep_step dt a = a + dt * DEGREES_PER_SECOND ∨
     sweep_step dt a = a + dt * DEGREES_PER_SECOND - 360) := by
  have hpos : 0 ≤ dt * DEGREES_PER_SECOND :=
    mul_nonneg hdt (by norm_num [DEGREES_PER_SECOND])
  simp only [sweep_step]
  split_ifs with h
  · exact ⟨by linarith, by linarith, Or.inr (by trivial)⟩
  · exact ⟨by linarith, by linarith, Or.inl (by trivial)⟩

/-- C6 amended: provided one tick advances the sweep by less than a full
revolution (`dt * DEGREES_PER_SECOND < 360`, true of every real tick), the
sweep angle after `N` ticks from `init ∈ [0, 360)` equals
`(init + N * DEGREES_PER_SECOND * dt) mod 360` and stays in [0, 360); and
the angle produced by a full `update_sweep` call is exactly this
`sweep_step` advance. -/
theorem sweep_angle_iter_amended (init dt : ℚ) (N : ℕ)
    (h0 : 0 ≤ init) (h1 : init < 360) (hdt : 0 ≤ dt)
    (hstep : dt * DEGREES_PER_SECOND < 360) :
    sweep_iter init dt N = mod360 (init + N * (DEGREES_PER_SECOND * dt)) ∧
    0 ≤ sweep_iter init dt N ∧ sweep_iter init dt N < 360 ∧
    (∀ (now : ℚ) (w : RadarWidget),
      (update_sweep dt now w).sweep_angle = sweep_step dt w.sweep_angle) := by
  have key : ∀ n : ℕ, 0 ≤ sweep_iter init dt n ∧ sweep_iter init dt n < 360 ∧
      ∃ k : ℤ, init + n * (dt * DEGREES_PER_SECOND) =
        sweep_iter init dt n + 360 * k := by
    intro n
    induction n with
    | zero =>
      refine ⟨h0, h1, 0, ?_⟩
      show init + (0 : ℕ) * (dt * DEGREES_PER_SECOND) = init + 360 * (0 : ℤ)
      push_cast
      ring
    | succ m ih =>
      obtain ⟨ha, hb, k, hk⟩ := ih
      obtain ⟨ha', hb', hor⟩ :=
        sweep_step_cases dt (sweep_iter init dt m) ha hb hdt hstep
      have hiter : sweep_iter init dt (m + 1) =
          sweep_step dt (sweep_iter init dt m) := rfl
      rw [hiter]
      refine ⟨ha', hb', ?_⟩
      rcases hor with he | he
      · refine ⟨k, ?_⟩
        rw [he]
        push_cast
        linear_combination hk
      · refine ⟨k + 1, ?_⟩
        rw [he]
        push_cast
        linear_combination hk
  obtain ⟨ha, hb, k, hk⟩ := key N
  refine ⟨?_, ha, hb, fun now w => rfl⟩
  refine (mod360_eq_of_decomp _ _ ha hb k ?_).symm
  rw [mul_comm DEGREES_PER_SECOND dt]
  exact hk

/-- Witness for the amended C6 theorem at a concrete start and tick. -/
theorem sweep_angle_iter_amended_witness :
    0 ≤ sweep_iter 0 1 2 :=
  (sweep_angle_iter_amended 0 1 2 (by norm_num) (by norm_num) (by norm_num)
    (by norm_num [DEGREES_PER_SECOND])).2.1

/-- `update_first_contact` rewrites one contact in place, so the id list is
unchanged. -/
theorem update_first_contact_ids (now : ℚ) (obj : WorldObjects)
    (l : List Contact) :
    (update_first_contact now obj l).map (fun c => c.id) =
      l.map (fun c => c.id) := by
  induction l with
  | nil => rfl
  | cons c cs ih =>
    unfold update_first_contact
    by_cases h : c.id = obj.id
    · rw [if_pos h]
      simp [hit_contact]
    · rw [if_neg h]
      simp only [List.map_cons, ih]

/-- Every element of `update_first_contact` is an original contact or the
re-hit version of an original contact with the object's id. -/
theorem update_first_contact_mem (now : ℚ) (obj : WorldObjects) :
    ∀ (l : List Contact) (x : Contact), x ∈ update_first_contact now obj l →
      x ∈ l ∨ ∃ c ∈ l, c.id = obj.id ∧ x = hit_contact now obj c := by
  intro l
  induction l with
  | nil =>
    intro x hx
    simp [update_first_contact] at hx
  | cons c cs ih =>
    intro x hx
    unfold update_first_contact at hx
    by_cases h : c.id = obj.id
    · rw [if_pos h] at hx
      rcases List.mem_cons.mp hx with rfl | hx'
      · exact Or.inr ⟨c, List.mem_cons_self c cs, h, rfl⟩
      · exact Or.inl (List.mem_cons_of_mem _ hx')
    · rw [if_neg h] at hx
      rcases List.mem_cons.mp hx with rfl | hx'
      · exact Or.inl (List.mem_cons_self _ _)
      · rcases ih x hx' with h1 | ⟨c', hc', hid, he⟩
        · exact Or.inl (List.mem_cons_of_mem _ h1)
        · exact Or.inr ⟨c', List.mem_cons_of_mem _ hc', hid, he⟩

/-- When no contact ahead of the matching one carries the object's id,
`update_first_contact` rewrites exactly that contact. -/
theorem update_first_contact_append (now : ℚ) (obj : WorldObjects)
    (l1 : List Contact) (c : Contact) (l2 : List Contact)
    (h1 : ∀ x ∈ l1, x.id ≠ obj.id) (hc : c.id = obj.id) :
    update_first_contact now obj (l1 ++ c :: l2) =
      l1 ++ hit_contact now obj c :: l2 := by
  induction l1 with
  | nil =>
    simp only [List.nil_append]
    unfold update_first_contact
    rw [if_pos hc]
  | cons d ds ih =>
    have hd : d.id ≠ obj.id := h1 d (List.mem_cons_self d ds)
    simp only [List.cons_append]
    unfold update_first_contact
    rw [if_neg hd, ih (fun x hx => h1 x (List.mem_cons_of_mem _ hx))]

/-- Under distinct contact ids, every contact of `update_first_contact`
that carries the object's id has visibility 1. -/
theorem update_first_contact_visible (now : ℚ) (obj : WorldObjects) :
    ∀ l : List Contact, (l.map fun c => c.id).Nodup →
      ∀ c ∈ update_first_contact now obj l, c.id = obj.id →
        c.visibility = 1 := by
  intro l
  induction l with
  | nil =>
    intro _ c hc
    simp [update_first_contact] at hc
  | cons d ds ih =>
    intro hnd c hc hci
    have hnd' : (d.id :: ds.map fun c => c.id).Nodup := by simpa using hnd
    obtain ⟨hnotin, hndtl⟩ := List.nodup_cons.mp hnd'
    unfold update_first_contact at hc
    by_cases h : d.id = obj.id
    · rw [if_pos h] at hc
      rcases List.mem_cons.mp hc with rfl | hc'
      · rfl
      · exact absurd (List.mem_map.mpr ⟨c, hc', by rw [hci, h]⟩) hnotin
    · rw [if_neg h] at hc
      rcases List.mem_cons.mp hc with rfl | hc'
      · exact absurd hci h
      · exact ih hndtl c hc' hci

/-- Every element of `record_detection` is an original contact, the freshly
pushed contact, or a re-hit original contact. -/
theorem record_detection_mem (now : ℚ) (obj : WorldObjects)
    (l : List Contact) (x : Contact) (hx : x ∈ record_detection now obj l) :
    x ∈ l ∨ x = new_contact now obj ∨
      ∃ c ∈ l, c.id = obj.id ∧ x = hit_contact now obj c := by
  unfold record_detection at hx
  split_ifs at hx with ha
  · rcases update_first_contact_mem now obj l x hx with h | h
    · exact Or.inl h
    · exact Or.inr (Or.inr h)
  · rcases List.mem_append.mp hx with h | h
    · exact Or.inl h
    · simp only [List.mem_singleton] at h
      exact Or.inr (Or.inl h)

/-- `record_detection` preserves "every contact with id `i` is fully
visible", for any id `i`. -/
theorem record_detection_preserves_visible (now : ℚ) (obj : WorldObjects)
    (l : List Contact) (i : Nat)
    (h : ∀ c ∈ l, c.id = i → c.visibility = 1) :
    ∀ c ∈ record_detection now obj l, c.id = i → c.visibility = 1 := by
  intro c hc hci
  rcases record_detection_mem now obj l c hc with h1 | h1 | ⟨c', _, _, rfl⟩
  · exact h c h1 hci
  · rw [h1]
    rfl
  · rfl

/-- Under distinct contact ids, after `record_detection` every contact with
the detected object's id has visibility 1. -/
theorem record_detection_establishes_visible (now : ℚ) (obj : WorldObjects)
    (l : List Contact) (hnd : (l.map fun c => c.id).Nodup) :
    ∀ c ∈ record_detection now obj l, c.id = obj.id → c.visibility = 1 := by
  unfold record_detection
  split_ifs with ha
  · exact update_first_contact_visible now obj l hnd
  · intro c hc hci
    rcases List.mem_append.mp hc with h1 | h1
    · exfalso
      apply ha
      rw [List.any_eq_true]
      exact ⟨c, h1, by simp [hci]⟩
    · simp only [List.mem_singleton] at h1
      rw [h1]
      rfl

/-- `record_detection` keeps the contact id list duplicate-free. -/
theorem record_detection_ids_nodup (now : ℚ) (obj : WorldObjects)
    (l : List Contact) (hnd : (l.map fun c => c.id).Nodup) :
    ((record_detection now obj l).map fun c => c.id).Nodup := by
  unfold record_detection
  split_ifs with ha
  · rw [update_first_contact_ids]
    exact hnd
  · rw [List.map_append]
    refine List.nodup_append.mpr ⟨hnd, List.nodup_singleton _, ?_⟩
    intro a hal har
    simp only [List.map_cons, List.map_nil, List.mem_singleton] at har
    subst har
    rw [List.mem_map] at hal
    obtain ⟨c, hcl, hcid⟩ := hal
    apply ha
    rw [List.any_eq_true]
    exact ⟨c, hcl, by simp [hcid, new_contact]⟩

/-- The sweep-hit fold preserves "every contact with id `i` is fully
visible", for any id `i`. -/
theorem sweep_hits_fold_preserves_visible (now o n : ℚ) (i : Nat) :
    ∀ (objs : List WorldObjects) (l : List Contact),
      (∀ c ∈ l, c.id = i → c.visibility = 1) →
      ∀ c ∈ sweep_hits_fold now o n objs l, c.id = i → c.visibility = 1 := by
  intro objs
  induction objs with
  | nil => intro l h c hc; exact h c hc
  | cons ob obs ih =>
    intro l h
    have hstep : sweep_hits_fold now o n (ob :: obs) l =
        sweep_hits_fold now o n obs
          (if sweep_crossed_target o n ob.angle then record_detection now ob l
           else l) := rfl
    rw [hstep]
    apply ih
    by_cases hcr : sweep_crossed_target o n ob.angle = true
    · rw [if_pos hcr]
      exact record_detection_preserves_visible now ob l i h
    · rw [if_neg hcr]
      exact h

/-- The sweep-hit fold keeps the contact id list duplicate-free. -/
theorem sweep_hits_fold_ids_nodup (now o n : ℚ) :
    ∀ (objs : List WorldObjects) (l : List Contact),
      (l.map fun c => c.id).Nodup →
      ((sweep_hits_fold now o n objs l).map fun c => c.id).Nodup := by
  intro objs
  induction objs with
  | nil => intro l h; exact h
  | cons ob obs ih =>
    intro l h
    have hstep : sweep_hits_fold now o n (ob :: obs) l =
        sweep_hits_fold now o n obs
          (if sweep_crossed_target o n ob.angle then record_detection now ob l
           else l) := rfl
    rw [hstep]
    apply ih
    by_cases hcr : sweep_crossed_target o n ob.angle = true
    · rw [if_pos hcr]
      exact record_detection_ids_nodup now ob l h
    · rw [if_neg hcr]
      exact h

/-- Under distinct contact ids, every contact left by the sweep-hit fold
whose id belongs to a crossed object has visibility 1. -/
theorem sweep_hits_fold_hit_visible (now o n : ℚ) :
    ∀ (objs : List WorldObjects) (l : List Contact),
      (l.map fun c => c.id).Nodup →
      ∀ c ∈ sweep_hits_fold now o n objs l,
        c.id ∈ ((objs.filter fun ob => sweep_crossed_target o n ob.angle).map
          fun ob => ob.id) →
        c.visibility = 1 := by
  intro objs
  induction objs with
  | nil =>
    intro l _ c _ hmem
    simp at hmem
  | cons ob obs ih =>
    intro l hnd c hc hmem
    have hstep : sweep_hits_fold now o n (ob :: obs) l =
        sweep_hits_fold now o n obs
          (if sweep_crossed_target o n ob.angle then record_detection now ob l
           else l) := rfl
    rw [hstep] at hc
    by_cases hcr : sweep_crossed_target o n ob.angle = true
    · rw [if_pos hcr] at hc
      rw [@List.filter_cons_of_pos _ (fun x => sweep_crossed_target o n x.angle)
        ob obs hcr, List.map_cons] at hmem
      rcases List.mem_cons.mp hmem with h1 | h1
      · exact sweep_hits_fold_preserves_visible now o n ob.id obs
          (record_detection now ob l)
          (record_detection_establishes_visible now ob l hnd) c hc h1
      · exact ih (record_detection now ob l)
          (record_detection_ids_nodup now ob l hnd) c hc h1
    · rw [if_neg hcr] at hc
      rw [@List.filter_cons_of_neg _ (fun x => sweep_crossed_target o n x.angle)
        ob obs hcr] at hmem
      exact ih l hnd c hc hmem

/-- The visibility refresh keeps the contact id list duplicate-free: it is a
filter followed by an id-preserving map. -/
theorem refresh_contacts_ids_nodup (now fade : ℚ) (l : List Contact)
    (h : (l.map fun c => c.id).Nodup) :
    ((refresh_contacts now fade l).map fun c => c.id).Nodup := by
  unfold refresh_contacts
  rw [List.map_map]
  have he : ((fun c : Contact => c.id) ∘ refreshed_contact now fade) =
      fun c : Contact => c.id := rfl
  rw [he]
  exact List.Nodup.sublist (List.Sublist.map _ (List.filter_sublist _)) h

/-- C4: `record_detection` appends a visibility-1 contact when the id is new,
rewrites exactly the existing contact with that id otherwise (overwriting its
position snapshot, resetting its last-hit time, setting visibility 1), and
after a full `update_sweep` every contact whose id was crossed by the beam in
that update has visibility exactly 1 — detection wins over the refresh. -/
theorem record_detection_spec :
    (∀ (now : ℚ) (obj : WorldObjects) (contacts : List Contact),
      (∀ c ∈ contacts, c.id ≠ obj.id) →
      record_detection now obj contacts = contacts ++ [new_contact now obj]) ∧
    (∀ (now : ℚ) (obj : WorldObjects) (l1 : List Contact) (c : Contact)
      (l2 : List Contact), (∀ x ∈ l1, x.id ≠ obj.id) → c.id = obj.id →
      record_detection now obj (l1 ++ c :: l2) =
        l1 ++ hit_contact now obj c :: l2) ∧
    (∀ (dt now : ℚ) (w : RadarWidget), (contact_ids w).Nodup →
      ∀ c ∈ (update_sweep dt now w).detected_contacts,
        c.id ∈ ((w.world_objects.filter fun ob => sweep_crossed_target
          w.sweep_angle (sweep_step dt w.sweep_angle) ob.angle).map
            fun ob => ob.id) →
        c.visibility = 1) := by
  refine ⟨?_, ?_, ?_⟩
  · intro now obj contacts h
    unfold record_detection
    rw [if_neg]
    intro hany
    rw [List.any_eq_true] at hany
    obtain ⟨c, hcl, hcid⟩ := hany
    exact h c hcl (by simpa using hcid)
  · intro now obj l1 c l2 h1 hc
    unfold record_detection
    rw [if_pos, update_first_contact_append now obj l1 c l2 h1 hc]
    rw [List.any_eq_true]
    exact ⟨c, by simp, by simp [hc]⟩
  · intro dt now w hnd c hc hmem
    have hc' : c ∈ sweep_hits_fold now w.sweep_angle
        (sweep_step dt w.sweep_angle) w.world_objects
        (refresh_contacts now w.fade_duration w.detected_contacts) := hc
    exact sweep_hits_fold_hit_visible now w.sweep_angle
      (sweep_step dt w.sweep_angle) w.world_objects
      (refresh_contacts now w.fade_duration w.detected_contacts)
      (refresh_contacts_ids_nodup now w.fade_duration w.detected_contacts hnd)
      c hc' hmem

/-- Witness for C4: a first-time detection on an empty contact list. -/
theorem record_detection_spec_witness :
    record_detection 5 demo_obj [] = [] ++ [new_contact 5 demo_obj] :=
  record_detection_spec.1 5 demo_obj [] (by simp)

/-- One widget operation never duplicates a contact id. -/
theorem apply_op_contact_ids_nodup (w : RadarWidget) (op : Op)
    (h : (contact_ids w).Nodup) : (contact_ids (apply_op w op)).Nodup := by
  cases op with
  | sweep dt now =>
    show ((sweep_hits_fold now w.sweep_angle (sweep_step dt w.sweep_angle)
      w.world_objects (refresh_contacts now w.fade_duration
        w.detected_contacts)).map fun c => c.id).Nodup
    exact sweep_hits_fold_ids_nodup _ _ _ _ _
      (refresh_contacts_ids_nodup _ _ _ h)
  | refresh now =>
    show ((refresh_contacts now w.fade_duration
      w.detected_contacts).map fun c => c.id).Nodup
    exact refresh_contacts_ids_nodup _ _ _ h
  | motion dt => exact h
  | spawn obj => exact h

/-- Any sequence of widget operations keeps contact ids duplicate-free. -/
theorem ops_contact_ids_nodup :
    ∀ (ops : List Op) (w : RadarWidget), (contact_ids w).Nodup →
      (contact_ids (ops.foldl apply_op w)).Nodup := by
  intro ops
  induction ops with
  | nil => intro w hc; exact hc
  | cons op rest ih =>
    intro w hc
    have hstep : (op :: rest).foldl apply_op w =
        rest.foldl apply_op (apply_op w op) := rfl
    rw [hstep]
    exact ih (apply_op w op) (apply_op_contact_ids_nodup w op hc)

/-- C7: starting from at most one contact per id (and distinct live world
object ids), any sequence of sweep updates, visibility refreshes, motion
updates and spawns leaves the contact set with at most one contact per id. -/
theorem contact_ids_nodup_invariant (w : RadarWidget) (ops : List Op)
    (hc : (contact_ids w).Nodup)
    (hw : (w.world_objects.map fun o => o.id).Nodup) :
    (contact_ids (ops.foldl apply_op w)).Nodup :=
  ops_contact_ids_nodup ops w hc

/-- Witness for C7 on a concrete widget and operation sequence. -/
theorem contact_ids_nodup_invariant_witness :
    (contact_ids ([Op.spawn demo_obj, Op.motion 1,
      Op.refresh 0].foldl apply_op demo_widget)).Nodup :=
  contact_ids_nodup_invariant demo_widget
    [Op.spawn demo_obj, Op.motion 1, Op.refresh 0]
    (by simp [contact_ids, demo_widget]) (by simp [demo_widget])

end RadarSim

namespace RadarTui

open RadarSim

/-- `crossterm::event::KeyCode`, shallowly: the two codes the update loop
distinguishes (`Esc` and `Char`), plus representatives of the remaining
variants, which `Tui::update` treats uniformly. -/
inductive KeyCode
  | Esc
  | Char (c : Char)
  | Enter
  | Backspace
  | FKey (n : Nat)
deriving DecidableEq, Repr

/-- `Message` from src/tui.rs. -/
inductive Message
  | Quit
  | Tick
  | Render
  | KeyPress (key : KeyCode)
deriving DecidableEq, Repr

/-- `UpdateCommand` from src/tui.rs. -/
inductive UpdateCommand
  | NoneCmd
  | QuitCmd
deriving DecidableEq, Repr

/-- `Model` from src/tui.rs. The `FpsCounter` (whose source file is not part
of src/) is modelled from the spec: a frame counter ticked once per render,
touching no simulation state. -/
structure Model where
  fps_ticks : Nat
  radar : RadarWidget
  last_spawn_time : ℚ
  sweep_rate : ℚ
  next_id : Nat
deriving DecidableEq, Repr

/-- The ambient inputs of one `Tui::update` call: the tick rate configured on
the `Tui`, the wall clock, and the random draws any spawn on this tick would
consume. -/
structure Env where
  tick_rate : ℚ
  now : ℚ
  sel : Nat
  r1 : ℚ
  r2 : ℚ
  r3 : ℚ
  r4 : ℚ
deriving DecidableEq, Repr

/-- The spawn dispatch inside `Message::Tick` handling
(`match id % 10 { 0..=3 aircraft, 4..=5 ship, 6 unknown, 7 hostile,
8 generic, 9 weather, _ random }`). -/
def spawn_for_id (id : Nat) (env : Env) (w : RadarWidget) : RadarWidget :=
  match id % 10 with
  | 0 | 1 | 2 | 3 => spawn_aircraft id env.r1 env.r2 env.r3 w
  | 4 | 5 => spawn_ship id env.r1 env.r2 env.r3 env.r4 w
  | 6 => spawn_unknown id env.r1 env.r2 env.r3 env.r4 w
  | 7 => spawn_hostile id env.r1 env.r2 env.r3 env.r4 w
  | 8 => spawn_generic id env.r1 env.r2 env.r3 env.r4 w
  | 9 => spawn_weather id env.r1 env.r2 env.r3 env.r4 w
  | _ => spawn_random_object id env.sel env.r1 env.r2 env.r3 env.r4 w

/-- The `Message::Tick` branch of `Tui::update`: advance world objects and
the sweep by `1 / tick_rate`, then spawn one object if at least five whole
seconds passed since the last spawn (`duration_since(..).as_secs() >= 5`). -/
def tick_update (env : Env) (m : Model) : Model :=
  let delta_time := 1 / env.tick_rate
  let radar1 := update_world_objects delta_time m.radar
  let radar2 := update_sweep delta_time env.now radar1
  if elapsed_since env.now m.last_spawn_time ≥ 5 then
    let id := m.next_id
    { m with radar := spawn_for_id id env radar2,
             next_id := id + 1,
             last_spawn_time := env.now }
  else
    { m with radar := radar2 }

/-- `Tui::update` (src/tui.rs lines 164-206): the message dispatch. Every
branch except an `Esc`/`'q'` key press falls through to
`Ok(UpdateCommand::None)`. -/
def update (env : Env) (message : Message) (m : Model) :
    Model × UpdateCommand :=
  match message with
  | Message.Quit => (m, UpdateCommand.NoneCmd)
  | Message.KeyPress key =>
    match key with
    | KeyCode.Esc => (m, UpdateCommand.QuitCmd)
    | KeyCode.Char c =>
      if c = 'q' then (m, UpdateCommand.QuitCmd) else (m, UpdateCommand.NoneCmd)
    | _ => (m, UpdateCommand.NoneCmd)
  | Message.Tick => (tick_update env m, UpdateCommand.NoneCmd)
  | Message.Render => ({ m with fps_ticks := m.fps_ticks + 1 }, UpdateCommand.NoneCmd)

/-- A concrete environment used by the demonstration theorems below. -/
def demo_env : Env := ⟨15, 0, 0, 0, 0, 0, 0⟩

/-- A concrete model used by the demonstration theorems below. -/
def demo_model : Model := ⟨0, demo_widget, 0, 8, 1000⟩

/-- C8: a key-press message yields the Quit command exactly when the key is
Escape or the character q; every other key yields the no-op command and
leaves the model — radar state included — unchanged. -/
theorem update_keypress_spec (env : Env) (m : Model) (k : KeyCode) :
    update env (Message.KeyPress k) m =
      (m, if k = KeyCode.Esc ∨ k = KeyCode.Char 'q' then UpdateCommand.QuitCmd
          else UpdateCommand.NoneCmd) ∧
    ((update env (Message.KeyPress k) m).2 = UpdateCommand.QuitCmd ↔
      (k = KeyCode.Esc ∨ k = KeyCode.Char 'q')) := by
  cases k with
  | Esc => simp [update]
  | Char c =>
    by_cases hq : c = 'q'
    · subst hq
      simp [update]
    · simp [update, hq]
  | Enter => simp [update]
  | Backspace => simp [update]
  | FKey n => simp [update]

/-- C10: a `Quit` message variant itself produces the no-op command and
leaves the model untouched; only an Escape or q key press ever produces the
Quit command, so a channel-delivered `Quit` message never ends the loop. -/
theorem update_quit_message_spec :
    (∀ (env : Env) (m : Model),
      update env Message.Quit m = (m, UpdateCommand.NoneCmd)) ∧
    (∀ (env : Env) (m : Model) (msg : Message),
      (update env msg m).2 = UpdateCommand.QuitCmd →
      msg = Message.KeyPress KeyCode.Esc ∨
        msg = Message.KeyPress (KeyCode.Char 'q')) := by
  refine ⟨fun env m => rfl, ?_⟩
  intro env m msg h
  cases msg with
  | Quit => exact absurd h (by simp [update])
  | Tick => exact absurd h (by simp [update])
  | Render => exact absurd h (by simp [update])
  | KeyPress k =>
    cases k with
    | Esc => exact Or.inl rfl
    | Char c =>
      by_cases hq : c = 'q'
      · subst hq
        exact Or.inr rfl
      · exact absurd h (by simp [update, hq])
    | Enter => exact absurd h (by simp [update])
    | Backspace => exact absurd h (by simp [update])
    | FKey n => exact absurd h (by simp [update])

/-- Witness for C10: the Escape key press does produce the Quit command. -/
theorem update_quit_message_spec_witness :
    Message.KeyPress KeyCode.Esc = Message.KeyPress KeyCode.Esc ∨
      Message.KeyPress KeyCode.Esc = Message.KeyPress (KeyCode.Char 'q') :=
  update_quit_message_spec.2 demo_env demo_model
    (Message.KeyPress KeyCode.Esc) rfl

end RadarTui

namespace RadarSim

/-- C1: the beam-crossing test agrees with the specified rule everywhere:
in the non-wrapping case (`new ≥ old`) an object is crossed iff
`old ≤ t ≤ new` and `t - old ≤ 3`; in the wrapping case (`new < old`) iff
`t ≥ old ∨ t ≤ new` and the effective sweep distance (`new + (360 - old)`
pre-wrap, `new` post-wrap) is at most 3. In particular with the sweep going
from 358° to 2°, an object at 1° is crossed and one at 170° is not. -/
theorem sweep_crossed_target_eq_spec (o n t : ℚ) :
    sweep_crossed_target o n t = crossedSpec o n t ∧
    sweep_crossed_target 358 2 1 = true ∧
    sweep_crossed_target 358 2 170 = false := by
  refine ⟨?_, by norm_num [sweep_crossed_target, sweep_width],
    by norm_num [sweep_crossed_target, sweep_width]⟩
  unfold sweep_crossed_target crossedSpec
  by_cases h : n < o
  · rw [if_pos h, if_neg (not_le.mpr h)]
    by_cases hc : t ≥ o ∨ t ≤ n
    · rw [if_pos hc]
      simp only [sweep_width, sub_zero, decide_eq_decide]
      constructor
      · intro hd
        exact ⟨hc, hd⟩
      · intro hd
        exact hd.2
    · rw [if_neg hc]
      simp [hc]
  · rw [if_neg h, if_pos (not_lt.mp h)]
    by_cases hc : t ≥ o ∧ t ≤ n
    · rw [if_pos hc]
      simp only [sweep_width, decide_eq_decide, ge_iff_le]
      constructor
      · intro hd
        exact ⟨hc.1, hc.2, hd⟩
      · intro hd
        exact hd.2.2
    · rw [if_neg hc]
      symm
      rw [decide_eq_false_iff_not]
      rintro ⟨h1, h2, -⟩
      exact hc ⟨h1, h2⟩

/-- C2 counterexample: with the sweep wrapping from 358° to 2°, an object
sitting exactly on the old angle 358° is NOT reported as crossed (the
effective sweep distance 2 + (360 - 358) = 4 exceeds the beam width 3),
refuting "an object at exactly old_angle is always crossed". -/
theorem sweep_crossed_at_old_angle_ctrex :
    sweep_crossed_target 358 2 358 = false := by
  norm_num [sweep_crossed_target, sweep_width]

/-- C2 amended: in the non-wrapping case an object exactly at `old_angle` is
always crossed and an object at `old_angle + beam_width + 0.01` inside the
traveled arc is never crossed. In the wrapping case an object at `old_angle`
is crossed iff the full wrapped sweep `new + (360 - old)` is at most the beam
width; an object at `old_angle + beam_width + 0.01` that stays below 360°
is never crossed, while one wrapping into the post-wrap segment
(≤ `new_angle`) is crossed iff `new_angle ≤ beam_width`. -/
theorem sweep_crossed_boundary_amended (o n : ℚ)
    (ho0 : 0 ≤ o) (ho : o < 360) (hn0 : 0 ≤ n) (hn : n < 360) :
    (o ≤ n → sweep_crossed_target o n o = true) ∧
    (o ≤ n → o + 3 + 1 / 100 ≤ n →
      sweep_crossed_target o n (o + 3 + 1 / 100) = false) ∧
    (n < o → (sweep_crossed_target o n o = true ↔ n + (360 - o) ≤ 3)) ∧
    (n < o → o + 3 + 1 / 100 < 360 →
      sweep_crossed_target o n (o + 3 + 1 / 100) = false) ∧
    (n < o → o + 3 + 1 / 100 - 360 ≤ n →
      (sweep_crossed_target o n (o + 3 + 1 / 100 - 360) = true ↔ n ≤ 3)) := by
  refine ⟨?_, ?_, ?_, ?_, ?_⟩
  · intro hon
    unfold sweep_crossed_target
    rw [if_neg (not_lt.mpr hon), if_pos ⟨le_refl o, hon⟩]
    simp [sweep_width]
  · intro hon harc
    unfold sweep_crossed_target
    rw [if_neg (not_lt.mpr hon), if_pos ⟨by linarith, harc⟩]
    simp [sweep_width]
    linarith
  · intro hw
    unfold sweep_crossed_target
    rw [if_pos hw, if_pos (Or.inl (le_refl o)), if_pos (le_refl o)]
    simp [sweep_width]
  · intro hw h360
    unfold sweep_crossed_target
    rw [if_pos hw, if_pos (Or.inl (by linarith)), if_pos (by linarith : o ≤ o + 3 + 1 / 100)]
    simp only [decide_eq_false_iff_not, sweep_width, not_le]
    linarith
  · intro hw harc
    unfold sweep_crossed_target
    have hto : ¬ (o + 3 + 1 / 100 - 360 ≥ o) := by
      simp only [ge_iff_le, not_le]
      linarith
    rw [if_pos hw, if_pos (Or.inr harc), if_neg hto]
    simp [sweep_width]

/-- Witness for the amended C2 theorem at a concrete non-wrapping sweep. -/
theorem sweep_crossed_boundary_amended_witness :
    sweep_crossed_target 10 20 10 = true :=
  (sweep_crossed_boundary_amended 10 20 (by norm_num) (by norm_num)
    (by norm_num) (by norm_num)).1 (by norm_num)

/-- C3: one visibility refresh keeps exactly the contacts younger than twice
the fade duration and recomputes every surviving visibility as
`max(0, 1 - elapsed/fade)` below the fade duration and 0 from there on;
that value is strictly decreasing in the elapsed time until it reaches 0 at
`elapsed = fade_duration` and is 0 for all larger elapsed times. -/
theorem update_target_visibility_spec (w : RadarWidget) (now : ℚ)
    (hf : 0 < w.fade_duration) :
    (update_target_visibility now w).detected_contacts =
      (w.detected_contacts.filter
        (fun c => elapsed_since now c.last_hit_time < 2 * w.fade_duration)).map
        (refreshed_contact now w.fade_duration) ∧
    (∀ e : ℚ, e < w.fade_duration →
      visibility_at w.fade_duration e = max 0 (1 - e / w.fade_duration)) ∧
    (∀ e : ℚ, w.fade_duration ≤ e → visibility_at w.fade_duration e = 0) ∧
    (∀ e1 e2 : ℚ, 0 ≤ e1 → e1 < e2 → e2 < w.fade_duration →
      visibility_at w.fade_duration e2 < visibility_at w.fade_duration e1) := by
  refine ⟨?_, ?_, ?_, ?_⟩
  · show refresh_contacts now w.fade_duration w.detected_contacts = _
    unfold refresh_contacts
    rw [mul_comm w.fade_duration 2]
  · intro e he
    unfold visibility_at
    rw [if_pos he, max_comm]
  · intro e he
    unfold visibility_at
    rw [if_neg (not_lt.mpr he)]
  · intro e1 e2 he1 h12 he2
    unfold visibility_at
    rw [if_pos he2, if_pos (lt_trans h12 he2)]
    have hd : e1 / w.fade_duration < e2 / w.fade_duration :=
      (div_lt_div_iff_of_pos_right hf).mpr h12
    have h2 : 0 < 1 - e2 / w.fade_duration := by
      have : e2 / w.fade_duration < 1 := (div_lt_one hf).mpr he2
      linarith
    rw [max_eq_left (le_of_lt h2), max_eq_left (by linarith)]
    linarith

/-- Witness for the C3 theorem on a concrete widget with one contact. -/
theorem update_target_visibility_spec_witness :
    visibility_at (14 : ℚ) 7 = max 0 (1 - 7 / 14) :=
  ((update_target_visibility_spec
    { sweep_angle := 0, detected_contacts := [], world_objects := [],
      max_range := 1000, fade_duration := 14 } 0 (by norm_num)).2.1) 7 (by norm_num)

/-- The visibility-refresh of a contact list is idempotent at a fixed wall
clock: the filter predicate and recomputed visibility depend only on the
last-hit time, which the refresh never changes. -/
theorem refresh_contacts_idem (now fade : ℚ) (l : List Contact) :
    refresh_contacts now fade (refresh_contacts now fade l) =
      refresh_contacts now fade l := by
  unfold refresh_contacts
  rw [List.filter_map, List.map_map, List.filter_filter]
  refine congrArg₂ List.map ?_ ?_
  · funext c
    show refreshed_contact now fade (refreshed_contact now fade c) =
      refreshed_contact now fade c
    rfl
  · refine List.filter_congr fun c _ => ?_
    show (decide (elapsed_since now
        (refreshed_contact now fade c).last_hit_time < fade * 2) &&
      decide (elapsed_since now c.last_hit_time < fade * 2)) =
      decide (elapsed_since now c.last_hit_time < fade * 2)
    cases hd : decide (elapsed_since now c.last_hit_time < fade * 2) <;>
      simp [refreshed_contact, hd]

/-- C9: running the per-tick visibility refresh twice at the same wall-clock
instant, with no detections in between, yields exactly the same widget
(same surviving contacts, same visibilities) as running it once. -/
theorem update_target_visibility_idem (now : ℚ) (w : RadarWidget) :
    update_target_visibility now (update_target_visibility now w) =
      update_target_visibility now w := by
  unfold update_target_visibility
  simp [refresh_contacts_idem]

end RadarSim
